import Mathlib

/-!
Verification of the `Cube` value object from `src/cube.js`.

JavaScript numbers are modelled as rationals (`ℚ`): every arithmetic
operation of the source (`+`, `*`, `Math.pow(_, 3)`) is exact on the
inputs the spec discusses, so the rational model is faithful to the
algebraic contracts stated there.  The constructor performs no
validation and stores any value verbatim, so the stored field is kept
polymorphic in a type `α`; the arithmetic accessors are defined on
`Cube ℚ`.

The asynchronous method `testPromise` is modelled by a `TimedPromise`:
a delay (in the source's time units, milliseconds) together with a
settlement (resolved with a value, or rejected).  `then` on a promise
that maps the resolved value is the `thenMap` combinator.  An observer
at time `t` sees nothing before the delay has elapsed and the
settlement afterwards.
-/

/-- The `Cube` class of `src/cube.js`: the constructor stores its single
argument in the `length` field verbatim (`this.length = length`). -/
structure Cube (α : Type) where
  length : α
deriving DecidableEq, Repr

/-- `new Cube(length)`: stores `length` verbatim, no validation. -/
def Cube.construct {α : Type} (length : α) : Cube α :=
  ⟨length⟩

/-- `add(num1, num2) { return num1 + num2; }` — does not read the instance. -/
def Cube.add {α : Type} (c : Cube α) (num1 num2 : ℚ) : ℚ :=
  num1 + num2

/-- `callAanotherMethod(num1, num2) { return this.add(num1, num2); }` —
delegates to `add` on the same instance and returns its result unchanged.
(The method name carries the source's spelling.) -/
def Cube.callAanotherMethod {α : Type} (c : Cube α) (num1 num2 : ℚ) : ℚ :=
  c.add num1 num2

/-- `getSideLength() { return this.length; }` -/
def Cube.getSideLength {α : Type} (c : Cube α) : α :=
  c.length

/-- `getSurfaceArea() { return (this.length * this.length) * 6; }` -/
def Cube.getSurfaceArea (c : Cube ℚ) : ℚ :=
  (c.length * c.length) * 6

/-- `getVolume() { return Math.pow(this.length, 3); }` -/
def Cube.getVolume (c : Cube ℚ) : ℚ :=
  c.length ^ 3

/-- Instrumented `add`: same result as `Cube.add`, and additionally a log
of the `(num1, num2)` argument pairs `add` was invoked with.  This is the
embedding of the sinon spy the test suite wraps around `add`. -/
def Cube.addLogged {α : Type} (c : Cube α) (num1 num2 : ℚ) : ℚ × List (ℚ × ℚ) :=
  (c.add num1 num2, [(num1, num2)])

/-- `callAanotherMethod` run against the instrumented `add`: the body is
the single delegated call, so the log it produces is `add`'s log. -/
def Cube.callAanotherMethodLogged {α : Type} (c : Cube α) (num1 num2 : ℚ) :
    ℚ × List (ℚ × ℚ) :=
  c.addLogged num1 num2

/-- Settlement of a JavaScript promise: resolved with a value, or rejected. -/
inductive PSettle (α : Type) where
  | resolved : α → PSettle α
  | rejected : PSettle α
deriving DecidableEq, Repr

/-- A single-shot asynchronous computation: it settles exactly once, after
`delay` time units, with settlement `settle`. -/
structure TimedPromise (α : Type) where
  delay : ℕ
  settle : PSettle α
deriving DecidableEq, Repr

/-- `.then(f)` on a promise, for a callback `f` that returns a plain value:
the delay is unchanged and a resolved value is mapped through `f`;
a rejection propagates. -/
def TimedPromise.thenMap {α β : Type} (p : TimedPromise α) (f : α → β) :
    TimedPromise β :=
  ⟨p.delay,
    match p.settle with
    | PSettle.resolved a => PSettle.resolved (f a)
    | PSettle.rejected => PSettle.rejected⟩

/-- `testPromise()`: a promise whose executor calls
`setTimeout(() => resolve(3), 1000)` and never calls `reject`, followed by
`.then(result => result * 2)`.  The body never reads `this`, so the model
is defined for a cube with a length of any type. -/
def Cube.testPromise {α : Type} (c : Cube α) : TimedPromise ℚ :=
  TimedPromise.thenMap ⟨1000, PSettle.resolved 3⟩ (fun result => result * 2)

/-- What an observer of promise `p` sees at time `t`: nothing while
`t < delay`, the settlement once the delay has elapsed. -/
def TimedPromise.observeAt {α : Type} (p : TimedPromise α) (t : ℕ) :
    Option (PSettle α) :=
  if p.delay ≤ t then some p.settle else none

/-- `getSideLength` as a state transformer on the instance, translated
from the method body: read `this`, return `this.length`, no assignment. -/
def Cube.getSideLengthM : StateM (Cube ℚ) ℚ := do
  let c ← get
  pure c.length

/-- `getSurfaceArea` as a state transformer on the instance: read `this`,
return `(this.length * this.length) * 6`, no assignment. -/
def Cube.getSurfaceAreaM : StateM (Cube ℚ) ℚ := do
  let c ← get
  pure ((c.length * c.length) * 6)

/-- `getVolume` as a state transformer on the instance: read `this`,
return `Math.pow(this.length, 3)`, no assignment. -/
def Cube.getVolumeM : StateM (Cube ℚ) ℚ := do
  let c ← get
  pure (c.length ^ 3)

/-- C1: for every numeric length `L`, a `Cube` constructed with `L` has
`getSurfaceArea() = 6·L²`; in particular `L=2` gives 24, `L=3` gives 54,
`L=4` gives 96 and `L=5` gives 150. -/
theorem cube_getSurfaceArea_spec :
    (∀ L : ℚ, (Cube.construct L).getSurfaceArea = 6 * L ^ 2) ∧
    (Cube.construct (2 : ℚ)).getSurfaceArea = 24 ∧
    (Cube.construct (3 : ℚ)).getSurfaceArea = 54 ∧
    (Cube.construct (4 : ℚ)).getSurfaceArea = 96 ∧
    (Cube.construct (5 : ℚ)).getSurfaceArea = 150 := by
  refine ⟨fun L => ?_, ?_, ?_, ?_, ?_⟩ <;>
    simp only [Cube.construct, Cube.getSurfaceArea] <;> ring

/-- C2: for every numeric length `L`, a `Cube` constructed with `L` has
`getVolume() = L³`; in particular `L=2` gives 8, `L=3` gives 27, `L=4`
gives 64 and `L=5` gives 125. -/
theorem cube_getVolume_spec :
    (∀ L : ℚ, (Cube.construct L).getVolume = L ^ 3) ∧
    (Cube.construct (2 : ℚ)).getVolume = 8 ∧
    (Cube.construct (3 : ℚ)).getVolume = 27 ∧
    (Cube.construct (4 : ℚ)).getVolume = 64 ∧
    (Cube.construct (5 : ℚ)).getVolume = 125 := by
  refine ⟨fun L => rfl, ?_, ?_, ?_, ?_⟩ <;>
    simp only [Cube.construct, Cube.getVolume] <;> norm_num

/-- C3: for all numeric `a` and `b`, including negative and fractional
values, `add(a, b) = a + b`. -/
theorem cube_add_spec :
    (∀ (c : Cube ℚ) (a b : ℚ), c.add a b = a + b) ∧
    (Cube.construct (0 : ℚ)).add (-3) 5 = 2 ∧
    (Cube.construct (0 : ℚ)).add (1 / 2) (1 / 4) = 3 / 4 := by
  refine ⟨fun c a b => rfl, ?_, ?_⟩ <;>
    simp only [Cube.construct, Cube.add] <;> norm_num

/-- C4: `callAanotherMethod(a, b)` always equals `add(a, b)`; the two
are distinct operations (the delegator's body is exactly one call to
`add`), and under the call-log instrumentation invoking the delegator
records exactly one invocation of `add`, with the same arguments,
returning its result unchanged. -/
theorem cube_callAanotherMethod_delegates :
    (∀ (c : Cube ℚ) (a b : ℚ), c.callAanotherMethod a b = c.add a b) ∧
    (∀ (c : Cube ℚ) (a b : ℚ),
      (c.callAanotherMethodLogged a b).1 = c.add a b ∧
      (c.callAanotherMethodLogged a b).2 = [(a, b)] ∧
      (c.callAanotherMethodLogged a b).2.length = 1) := by
  exact ⟨fun c a b => rfl, fun c a b => ⟨rfl, rfl, rfl⟩⟩

/-- C5: for every `Cube`, `testPromise()` settles as resolved with
exactly 6 (the deferred computation produces 3, then the `then` callback
doubles it), its delay is the fixed 1000 time units, and an observer sees
nothing at any time strictly before 1000 and the resolution at any time
from 1000 on. -/
theorem cube_testPromise_resolves_six_after_delay :
    ∀ (c : Cube ℚ) (t : ℕ),
      (Cube.testPromise c).delay = 1000 ∧
      (Cube.testPromise c).settle = PSettle.resolved 6 ∧
      (Cube.testPromise c).observeAt t =
        if 1000 ≤ t then some (PSettle.resolved 6) else none := by
  intro c t
  have hs : (Cube.testPromise c).settle = PSettle.resolved 6 := by
    simp only [Cube.testPromise, TimedPromise.thenMap]
    norm_num
  refine ⟨rfl, hs, ?_⟩
  simp only [TimedPromise.observeAt, Cube.testPromise, TimedPromise.thenMap]
  norm_num

/-- C6: `testPromise()` has no failure path: its settlement is a
resolution (with some value) and never a rejection. -/
theorem cube_testPromise_never_rejects :
    ∀ (α : Type) (c : Cube α),
      (Cube.testPromise c).settle ≠ PSettle.rejected ∧
      ∃ v : ℚ, (Cube.testPromise c).settle = PSettle.resolved v := by
  intro α c
  have hs : (Cube.testPromise c).settle = PSettle.resolved 6 := by
    simp only [Cube.testPromise, TimedPromise.thenMap]
    norm_num
  refine ⟨?_, 6, hs⟩
  rw [hs]
  intro h
  exact PSettle.noConfusion h

/-- C7: construction stores the supplied length verbatim with no
validation — for an input `L` of any type whatsoever (numeric or not,
including negative values), `getSideLength()` on the constructed `Cube`
returns `L` unchanged; concretely also for a string input and for `-5`. -/
theorem cube_construct_getSideLength_roundtrip :
    (∀ (α : Type) (L : α),
      (Cube.construct L).length = L ∧ (Cube.construct L).getSideLength = L) ∧
    (Cube.construct "three").getSideLength = "three" ∧
    (Cube.construct (-5 : ℚ)).getSideLength = -5 := by
  exact ⟨fun α L => ⟨rfl, rfl⟩, rfl, rfl⟩

/-- C8: no accessor mutates the instance — as state transformers each
accessor leaves the `Cube` state unchanged; a repeated call (run on the
state left by the first call) returns the identical value; and each
result is a pure function of the instance's own length alone, so two
cubes with different lengths cannot interfere. -/
theorem cube_accessors_immutable_pure :
    ∀ c : Cube ℚ,
      ((Cube.getSideLengthM.run c).2 = c ∧
        (Cube.getSurfaceAreaM.run c).2 = c ∧
        (Cube.getVolumeM.run c).2 = c) ∧
      ((Cube.getSideLengthM.run ((Cube.getSideLengthM.run c).2)).1 =
          (Cube.getSideLengthM.run c).1 ∧
        (Cube.getSurfaceAreaM.run ((Cube.getSurfaceAreaM.run c).2)).1 =
          (Cube.getSurfaceAreaM.run c).1 ∧
        (Cube.getVolumeM.run ((Cube.getVolumeM.run c).2)).1 =
          (Cube.getVolumeM.run c).1) ∧
      ((Cube.getSideLengthM.run c).1 = c.length ∧
        (Cube.getSurfaceAreaM.run c).1 = (c.length * c.length) * 6 ∧
        (Cube.getVolumeM.run c).1 = c.length ^ 3) := by
  intro c
  exact ⟨⟨rfl, rfl, rfl⟩, ⟨rfl, rfl, rfl⟩, rfl, rfl, rfl⟩

/-- C9 counterexample: at the negative length `-2`, `getSurfaceArea()`
returns 24, which is not negative — refuting the claim that a negative
length yields a negative surface area. -/
theorem cube_negative_surface_counterexample :
    (-2 : ℚ) < 0 ∧
    (Cube.construct (-2 : ℚ)).getSurfaceArea = 24 ∧
    ¬ (Cube.construct (-2 : ℚ)).getSurfaceArea < 0 := by
  refine ⟨by norm_num, ?_, ?_⟩ <;>
    simp only [Cube.construct, Cube.getSurfaceArea] <;> norm_num

/-- C9 amended: for every negative numeric length `L`, the unvalidated
arithmetic yields a positive `getSurfaceArea()` (the squaring erases the
sign) and a `getVolume()` with the unmodified, negative sign of `L`. -/
theorem cube_negative_length_signs (L : ℚ) (h : L < 0) :
    0 < (Cube.construct L).getSurfaceArea ∧ (Cube.construct L).getVolume < 0 := by
  constructor
  · have h2 : 0 < L * L := mul_pos_of_neg_of_neg h h
    simp only [Cube.construct, Cube.getSurfaceArea]
    positivity
  · simp only [Cube.construct, Cube.getVolume]
    exact Odd.pow_neg ⟨1, by norm_num⟩ h

/-- C9 witness: the amended statement evaluated at the concrete negative
length `-2`. -/
theorem cube_negative_length_signs_witness :
    0 < (Cube.construct (-2 : ℚ)).getSurfaceArea ∧
    (Cube.construct (-2 : ℚ)).getVolume < 0 :=
  cube_negative_length_signs (-2) (by norm_num)

/-- C10: `testPromise()` is independent of the cube's state — for any two
cubes, with lengths of any two types, the resulting promises are equal:
same delay, same settlement (the computation never reads `length`). -/
theorem cube_testPromise_state_independent :
    ∀ (α β : Type) (a : Cube α) (b : Cube β),
      Cube.testPromise a = Cube.testPromise b ∧
      (Cube.testPromise a).delay = (Cube.testPromise b).delay ∧
      (Cube.testPromise a).settle = (Cube.testPromise b).settle := by
  intro α β a b
  exact ⟨rfl, rfl, rfl⟩
